import Mathlib

/-!
Verification of the multi-agent orchestration and tool-sandbox subsystem of
the `gitforked` repository against its natural-language specification.

The JavaScript source is shallowly embedded: JS strings become `String`,
JS `null`/`undefined` become `Option`, thrown exceptions become `Except`,
and the event loop's sequential awaits become plain sequential evaluation.
External library functions (Node's `path` and `fs` modules, the provider
HTTP transport) are modelled as explicit function parameters, so every
theorem quantifies over their behavior; the repository's own logic is
translated line by line.
-/

namespace Gitforked

/-- JS `x || d` on a possibly-undefined string: `undefined` and the empty
string are falsy and select the default. Mirrors e.g. `role || ''` in
`Agent`'s constructor (src/config/config.js). -/
def jsOrS : Option String → String → String
  | none, d => d
  | some s, d => if s = "" then d else s

/-- JS `x || null` on a possibly-undefined string, as in `apiKey || null`
in `Agent`'s constructor (src/config/config.js). -/
def jsOrNull : Option String → Option String
  | none => none
  | some s => if s = "" then none else some s

/-- Whether `pat` occurs contiguously inside `l`. -/
def listContains (pat : List Char) : List Char → Bool
  | [] => pat.isEmpty
  | c :: t => pat.isPrefixOf (c :: t) || listContains pat t

/-- Boolean substring test: `containsSub s pat = true` iff `pat` occurs
contiguously inside `s`. Used to state "the prompt contains M". -/
def containsSub (s pat : String) : Bool :=
  listContains pat.toList s.toList

/-- JS `s.startsWith(p)` (character-wise prefix test). -/
def jsStartsWith (s p : String) : Bool :=
  p.toList.isPrefixOf s.toList

/-- The apostrophe character, used to spell string literals of the source
that contain one. -/
def apos : String := String.singleton (Char.ofNat 39)

/-! ## Tool sandbox (src/unnamed/part_002, `class ToolSandbox`)

Only the fields the verified operations consult are carried; the deny-list
regexes and the tool log are not needed by any claim. -/

structure ToolSandbox where
  projectRoot : String
  safeMode : Bool
  maxRounds : Nat
  maxToolCallsPerRound : Nat
  maxResultSize : Nat
  allowedPaths : List String
deriving DecidableEq

/-- The sandbox as `new ToolSandbox(...)` builds it from the constructor's
defaults (part_002 lines 6-35): `maxRounds 10`, `maxToolCallsPerRound 5`,
`maxResultSize 10240`, `allowedPaths = [resolve(projectRoot)]` (the root is
taken already resolved here). -/
def ToolSandbox.default (projectRoot : String) : ToolSandbox :=
  { projectRoot := projectRoot
    safeMode := true
    maxRounds := 10
    maxToolCallsPerRound := 5
    maxResultSize := 10240
    allowedPaths := [projectRoot] }

/-- First `n` characters of a string, JS `s.slice(0, n)`. -/
def sliceTo (s : String) (n : Nat) : String :=
  (s.toList.take n).asString

/-- Last `n` characters of a string, JS `s.slice(-n)` (whole string when
shorter than `n`). -/
def sliceLast (s : String) (n : Nat) : String :=
  (s.toList.drop (s.toList.length - n)).asString

/-- The literal joining marker of `ToolSandbox.truncateResult`
(part_002 line 165): `'\n...[TRUNCATED]...\n'`. -/
def truncMarker : String := "\n...[TRUNCATED]...\n"

/-- `ToolSandbox.truncateResult` (part_002 lines 156-166) for string
results: a no-op up to `maxResultSize`, else first 5120 chars + marker +
last 2048 chars. (The non-string `JSON.stringify` branch is outside the
embedding; every caller in the verified paths passes a string.) -/
def truncateResult (sb : ToolSandbox) (result : String) : String :=
  if result.length ≤ sb.maxResultSize then result
  else sliceTo result 5120 ++ truncMarker ++ sliceLast result 2048

/-! ## Path validation and the `read` tool
(`ToolSandbox.validatePath`, part_002 lines 52-81; `GrokAPI.executeRead`,
src/lib/grok-api.js lines 1922-1934)

Node's `path` module and the filesystem are external collaborators and are
modelled as explicit operation records; all theorems hold for every
instantiation. -/

/-- Node `path` primitives used by `validatePath`. `resolve2 root p`
stands for `path.resolve(root, p)`; `resolve1 d` for `path.resolve(d)`. -/
structure PathOps where
  resolve1 : String → String
  resolve2 : String → String → String
  dirname : String → String
  basename : String → String
  join : String → String → String

/-- The filesystem as seen by `validatePath`/`executeRead`:
`realpath p = none` models `fs.realpathSync` throwing (target absent),
`readFile p = none` models `fs.readFileSync` throwing. -/
structure FSOps where
  realpath : String → Option String
  readFile : String → Option String

/-- Result object of `ToolSandbox.validatePath`: either
`{allowed:true, resolvedPath}` or `{allowed:false, reason}`. -/
inductive ValidationResult
  | allowed (resolvedPath : String)
  | blocked (reason : String)
deriving DecidableEq

/-- The symlink-canonicalized path of part_002 lines 56-69: `realpathSync`
of the resolved path; on failure, `realpathSync` of the parent directory
joined with the basename; on double failure, the resolved path itself. -/
def computeRealPath (po : PathOps) (fsys : FSOps) (resolved : String) : String :=
  match fsys.realpath resolved with
  | some r => r
  | none =>
    match fsys.realpath (po.dirname resolved) with
    | some realParent => po.join realParent (po.basename resolved)
    | none => resolved

/-- `ToolSandbox.validatePath` (part_002 lines 52-81): resolve against the
project root, canonicalize, then require some allowed prefix via
`allowedPaths.some(ap => realPath.startsWith(ap))`. -/
def validatePath (po : PathOps) (fsys : FSOps) (sb : ToolSandbox) (filePath : String) :
    ValidationResult :=
  let resolved := po.resolve2 sb.projectRoot filePath
  let realPath := computeRealPath po fsys resolved
  if sb.allowedPaths.any (fun ap => jsStartsWith realPath ap) then
    .allowed realPath
  else
    .blocked ("Path outside project root: " ++ realPath)

/-- Line numbering of `executeRead` (grok-api.js lines 1929-1932):
`lines.slice(start, end).map((line,i) => start+i+1 \t line).join('\n')`,
with JS-falsy defaulting `offset || 0` and `limit ? start+limit : len`. -/
def numberLines (content : String) (offset limit : Option Nat) : String :=
  let lines := content.splitOn "\n"
  let start := match offset with
    | some n => n
    | none => 0
  let stop := match limit with
    | some 0 => lines.length
    | some n => start + n
    | none => lines.length
  String.intercalate "\n"
    (((lines.drop start).take (stop - start)).enum.map
      (fun p => toString (start + p.1 + 1) ++ "\t" ++ p.2))

/-- `GrokAPI.executeRead` (grok-api.js lines 1922-1934): validate the path;
when blocked, return the `Blocked:` sentinel without touching the
filesystem; otherwise read, number lines, truncate. A `readFileSync` throw
propagates (`.error`). -/
def executeRead (po : PathOps) (fsys : FSOps) (sb : ToolSandbox) (filePath : String)
    (offset limit : Option Nat) : Except String String :=
  match validatePath po fsys sb filePath with
  | .blocked reason => .ok ("Blocked: " ++ reason)
  | .allowed resolvedPath =>
    match fsys.readFile resolvedPath with
    | none => .error ("ENOENT: no such file or directory, open " ++ resolvedPath)
    | some content => .ok (truncateResult sb (numberLines content offset limit))

/-! ## Provider routing and sandbox update in `GrokAPI.processPrompt`
(src/lib/grok-api.js lines 1099-1132) -/

/-- The three dispatch targets of `processPrompt` lines 1119-1128. -/
inductive Route
  | toolLoopGrok
  | toolLoopClaude
  | singlePass
deriving DecidableEq

/-- The provider routing of `processPrompt` (grok-api.js lines 1121-1127):
`grok` and `claude` get a tool loop, everything else (`groq`, `gemini`,
`ollama`) is handled by `_processSinglePass`. -/
def processPromptRoute (provider : String) : Route :=
  if provider = "grok" then .toolLoopGrok
  else if provider = "claude" then .toolLoopClaude
  else .singlePass

/-- The sandbox mutation at the top of `processPrompt` (grok-api.js lines
1102-1106): a truthy `directory` option overwrites `projectRoot` and resets
`allowedPaths` to the single entry `path.resolve(directory)`. -/
def processPromptSandboxUpdate (po : PathOps) (sb : ToolSandbox)
    (directory : Option String) : ToolSandbox :=
  match directory with
  | some d =>
    if d = "" then sb
    else { sb with projectRoot := d, allowedPaths := [po.resolve1 d] }
  | none => sb

/-! ## Agent construction and serialization
(`class Agent`, src/config/config.js lines 87-187) -/

/-- The destructured constructor argument object of `new Agent({...})`;
`none` models an absent (`undefined`) property. `name` is stored raw by the
constructor, so it stays optional all the way through. -/
structure AgentCtorCfg where
  id : Option String
  name : Option String
  role : Option String
  systemPrompt : Option String
  provider : Option String
  model : Option String
  apiKey : Option String
  ollamaBaseUrl : Option String
deriving DecidableEq

/-- A constructed `Agent`'s persistent fields (config.js lines 89-96). The
runtime fields `messages`/`status`/`grokAPI` live in `AgentState` below. -/
structure Agent where
  id : String
  name : Option String
  role : String
  systemPrompt : String
  provider : String
  model : String
  apiKey : Option String
  ollamaBaseUrl : Option String
deriving DecidableEq

/-- The `Agent` constructor (config.js lines 88-100). `freshId` stands for
`crypto.randomUUID().slice(0, 8)`; `configProvider`/`configModel` for
`config.getProvider()`/`config.getModel()`. -/
def Agent.make (cfg : AgentCtorCfg) (freshId configProvider configModel : String) : Agent :=
  { id := jsOrS cfg.id freshId
    name := cfg.name
    role := jsOrS cfg.role ""
    systemPrompt := jsOrS cfg.systemPrompt ""
    provider := jsOrS cfg.provider configProvider
    model := jsOrS cfg.model configModel
    apiKey := jsOrNull cfg.apiKey
    ollamaBaseUrl := jsOrNull cfg.ollamaBaseUrl }

/-- The serialized agent record of `Agent.toJSON` (config.js lines
160-171); `apiKey` is always a plain string in the file. -/
structure AgentData where
  id : String
  name : Option String
  role : String
  systemPrompt : String
  provider : String
  model : String
  apiKey : String
  ollamaBaseUrl : Option String
deriving DecidableEq

/-- `Agent.toJSON` (config.js lines 160-171): every field copied; the
api key is written as the `'__config__'` sentinel when the agent holds no
own key (JS truthiness: `this.apiKey ? this.apiKey : '__config__'`). -/
def Agent.toJSON (a : Agent) : AgentData :=
  { id := a.id
    name := a.name
    role := a.role
    systemPrompt := a.systemPrompt
    provider := a.provider
    model := a.model
    apiKey := match a.apiKey with
      | some k => if k = "" then "__config__" else k
      | none => "__config__"
    ollamaBaseUrl := a.ollamaBaseUrl }

/-- `Agent.fromJSON` (config.js lines 173-186): the `'__config__'`
sentinel deserializes to `null`, then the constructor runs. -/
def Agent.fromJSON (d : AgentData) (freshId configProvider configModel : String) : Agent :=
  let resolvedApiKey : Option String :=
    if d.apiKey = "__config__" then none else some d.apiKey
  Agent.make
    { id := some d.id
      name := d.name
      role := some d.role
      systemPrompt := some d.systemPrompt
      provider := some d.provider
      model := some d.model
      apiKey := resolvedApiKey
      ollamaBaseUrl := d.ollamaBaseUrl }
    freshId configProvider configModel

/-! ## Team persistence
(`TeamManager.saveTeam`/`loadTeam`, src/unnamed/part_001 second module,
lines 186-228 of the concatenated file)

`JSON.stringify`/`JSON.parse` through the team file round-trips the record
structure, so the on-disk file is modelled as the structured record
itself; timestamps (`createdAt`/`updatedAt`) are outside every claim and
are not carried. -/

structure Team where
  name : String
  agents : List Agent
deriving DecidableEq

structure TeamData where
  name : String
  agents : List AgentData
deriving DecidableEq

/-- The serialized object built by `TeamManager.saveTeam` (lines 186-204):
`name || currentTeam.name` and `agents.map(a => a.toJSON())`. -/
def saveTeam (t : Team) (saveName : Option String) : TeamData :=
  { name := jsOrS saveName t.name
    agents := t.agents.map Agent.toJSON }

/-- The team reconstructed by `TeamManager.loadTeam` (lines 206-228):
`data.agents.map(Agent.fromJSON)` (each followed by `init()`, which only
binds the provider adapter). -/
def loadTeam (d : TeamData) (freshId configProvider configModel : String) : Team :=
  { name := d.name
    agents := d.agents.map (fun ad => Agent.fromJSON ad freshId configProvider configModel) }

/-- The six fields claim I4/L2 compares a reloaded agent on:
id, name, role, provider, model, systemPrompt. -/
def Agent.identityView (a : Agent) :
    String × Option String × String × String × String × String :=
  (a.id, a.name, a.role, a.provider, a.model, a.systemPrompt)

/-! ## Agent runtime: `Agent.sendMessage` (config.js lines 124-142) -/

/-- A DM-history message `{role, content}`. -/
structure Msg where
  role : String
  content : String
deriving DecidableEq

/-- Mutable runtime state of one agent: its private DM history and status. -/
structure AgentState where
  messages : List Msg
  status : String
deriving DecidableEq

/-- The history passed to `processPrompt` by `sendMessage` (config.js line
131): `opts.includeHistory ? this.messages : []`. -/
def historySentToProvider (st : AgentState) (includeHistory : Bool) : List Msg :=
  if includeHistory then st.messages else []

/-- `Agent.sendMessage` (config.js lines 124-142). `outcome` is the result
of the awaited `processPrompt` call (`.error` = the adapter threw). On
success the source pushes `{user: msg}` and `{assistant: response}` onto
`this.messages` unconditionally — `includeHistory` is consulted only by
`historySentToProvider` — and sets status `idle`; on a throw it sets status
`error` and rethrows, leaving the history untouched. -/
def sendMessage (st : AgentState) (msg : String) (includeHistory : Bool)
    (outcome : Except String String) : AgentState × Except String String :=
  match outcome with
  | .ok response =>
    ({ messages := st.messages ++ [⟨"user", msg⟩, ⟨"assistant", response⟩]
       status := "idle" }, .ok response)
  | .error e => ({ messages := st.messages, status := "error" }, .error e)

/-! ## Tool-call execution
(`GrokAPI.executeToolCalls`, grok-api.js lines 1406-1444)

`dispatch name args` stands for `this._dispatchTool(name, args, options)`
(`.error` = the tool threw); `perm` stands for the
`onPermissionRequired` callback handed over in `callbacks`. -/

/-- One OpenAI-format tool call `{id, type, function:{name, arguments}}`;
the JSON argument string is kept opaque. -/
structure ToolCall where
  id : String
  type : String
  name : String
  args : String
deriving DecidableEq

/-- One entry of the structured result list built by `executeToolCalls`. -/
structure ToolCallResult where
  toolCallId : String
  toolName : String
  result : String
  success : Bool
deriving DecidableEq

/-- `GrokAPI.executeToolCalls` (grok-api.js lines 1406-1444): skip
non-`function` entries, dispatch every remaining call, truncate successful
results, turn throws into `Error: <message>` entries. The destructured
`perm` (`onPermissionRequired`) callback is never consulted anywhere in
the body — exactly as in the source, which defaults it at line 1407 and
then never mentions it again. -/
def executeToolCalls (sb : ToolSandbox) (dispatch : String → String → Except String String)
    (perm : String → Bool) : List ToolCall → List ToolCallResult
  | [] => []
  | tc :: rest =>
    if tc.type ≠ "function" then executeToolCalls sb dispatch perm rest
    else
      let r : ToolCallResult :=
        match dispatch tc.name tc.args with
        | .ok result =>
          { toolCallId := tc.id, toolName := tc.name
            result := truncateResult sb result, success := true }
        | .error e =>
          { toolCallId := tc.id, toolName := tc.name
            result := "Error: " ++ e, success := false }
      r :: executeToolCalls sb dispatch perm rest

/-- The calls `executeToolCalls` hands to `_dispatchTool`: every entry with
`type === 'function'`, unconditionally, in order. -/
def dispatchedCalls (toolCalls : List ToolCall) : List (String × String) :=
  (toolCalls.filter (fun tc => tc.type = "function")).map (fun tc => (tc.name, tc.args))

/-! ## The Grok tool loop
(`GrokAPI._processWithToolLoop_Grok`, grok-api.js lines 1135-1215)

The provider is modelled as a script `Nat → String × List ToolCall`
mapping the round index to the assistant turn it returns (text content,
emitted tool calls); the system/conversation message bookkeeping is kept,
the HTTP transport and usage footer are not (no claim touches them). -/

/-- A message of the loop transcript: role, content, and for `tool`
messages the `tool_call_id` correlation. -/
structure LoopMsg where
  role : String
  content : String
  toolCallId : Option String
deriving DecidableEq

/-- The sentinel content of grok-api.js line 1188. -/
def toolLimitContent : String := "[Tool limit reached: max tool calls exceeded]"

/-- The `for (const tr of toolResults)` loop of grok-api.js lines
1183-1198: each result becomes a `tool` message; once `totalToolCalls`
has reached `maxTotal`, the content delivered is the synthetic
`toolLimitContent` instead of the real result. Returns the tool messages
and the updated counter. -/
def pushToolResults (maxTotal : Nat) : Nat → List ToolCallResult → List LoopMsg × Nat
  | total, [] => ([], total)
  | total, tr :: rest =>
    let m : LoopMsg :=
      if maxTotal ≤ total then ⟨"tool", toolLimitContent, some tr.toolCallId⟩
      else ⟨"tool", tr.result, some tr.toolCallId⟩
    let pr := pushToolResults maxTotal (total + 1) rest
    (m :: pr.1, pr.2)

/-- Result record of the Grok tool loop; `executed` is the instrumented
trace of `(name, args)` pairs handed to `_dispatchTool` (one per
function-type tool call reaching `executeToolCalls`). -/
structure GrokLoopResult where
  messages : List LoopMsg
  totalToolCalls : Nat
  executed : List (String × String)
  accumulated : String
  rounds : Nat
deriving DecidableEq

/-- The accumulation step of grok-api.js lines 1169-1171:
`if (content) accumulatedText += (accumulatedText ? '\n\n' : '') + content`. -/
def accumulate (acc content : String) : String :=
  if content = "" then acc
  else if acc = "" then content else acc ++ "\n\n" ++ content

/-- The `while (totalRounds < maxRounds)` loop of
`_processWithToolLoop_Grok` (grok-api.js lines 1152-1206), with
`fuel = maxRounds - totalRounds` as the structural measure. One iteration:
take the scripted assistant turn, record it, accumulate its text, stop if
it carries no tool calls; otherwise execute them all via
`executeToolCalls`, append their (possibly limit-replaced) tool messages,
bump the round counter, and stop early when the ceiling has been hit. -/
def grokLoopAux (sb : ToolSandbox) (dispatch : String → String → Except String String)
    (perm : String → Bool) (script : Nat → String × List ToolCall) :
    Nat → Nat → Nat → List LoopMsg → String → List (String × String) → GrokLoopResult
  | 0, totalRounds, totalToolCalls, messages, acc, execed =>
    ⟨messages, totalToolCalls, execed, acc, totalRounds⟩
  | fuel + 1, totalRounds, totalToolCalls, messages, acc, execed =>
    let turn := script totalRounds
    let messages := messages ++ [⟨"assistant", turn.1, none⟩]
    let acc := accumulate acc turn.1
    if turn.2.isEmpty then
      ⟨messages, totalToolCalls, execed, acc, totalRounds⟩
    else
      let trs := executeToolCalls sb dispatch perm turn.2
      let maxTotal := sb.maxRounds * sb.maxToolCallsPerRound
      let pr := pushToolResults maxTotal totalToolCalls trs
      let messages := messages ++ pr.1
      let execed := execed ++ dispatchedCalls turn.2
      if maxTotal ≤ pr.2 then
        ⟨messages, pr.2, execed,
          acc ++ "\n\n[Tool limit: max tool calls reached]", totalRounds + 1⟩
      else
        grokLoopAux sb dispatch perm script fuel (totalRounds + 1) pr.2 messages acc execed

/-- `GrokAPI._processWithToolLoop_Grok` (grok-api.js lines 1135-1215)
without the HTTP transport and usage footer: run the loop from round 0 and
append the max-rounds sentinel of lines 1208-1210 when the loop exhausted
its rounds. -/
def processWithToolLoopGrok (sb : ToolSandbox)
    (dispatch : String → String → Except String String) (perm : String → Bool)
    (script : Nat → String × List ToolCall) : GrokLoopResult :=
  let r := grokLoopAux sb dispatch perm script sb.maxRounds 0 0 [] "" []
  if sb.maxRounds ≤ r.rounds then
    { r with accumulated := r.accumulated ++ "\n\n[Tool limit: max rounds reached]" }
  else r

/-! ## Team channel
(`class TeamChannel`, src/unnamed/part_001 lines 3-128) -/

/-- One shared-transcript entry (part_001 lines 18-24 / 55-61):
`agentId = none` marks the user entry. Timestamps are outside every claim
and are not carried. -/
structure SharedMsg where
  agentId : Option String
  agentName : Option String
  role : String
  content : String
deriving DecidableEq

/-- A team member as the channel sees it: identity plus its behavior on a
prompt (`behave p = .error e` models `sendMessage` throwing `e`). -/
structure TAgent where
  id : String
  name : String
  role : String
  behave : String → Except String String

/-- JS `list.slice(-n)`: the last `n` elements. -/
def lastN {α : Type} (n : Nat) (l : List α) : List α :=
  l.drop (l.length - n)

/-- Header literal of part_001 line 99 (it contains an apostrophe). -/
def teammateHeader : String :=
  "== TEAMMATE RESPONSES (read carefully — build on their work, don" ++ apos ++
    "t repeat it) ==\n"

/-- The teammate block for one transcript entry (part_001 line 102):
`--- name (role) ---\ncontent\n\n` (JS interpolates a `null` name as the
text `null`). -/
def teammateBlock (m : SharedMsg) : String :=
  "--- " ++ m.agentName.getD "null" ++ " (" ++ m.role ++ ") ---\n" ++ m.content ++ "\n\n"

/-- Assignment text for the first agent (part_001 line 111). -/
def firstAssignment : String :=
  "You go FIRST. The rest of the team will build on your plan. Read the codebase with your tools, then produce a detailed, actionable plan.\n"

/-- Assignment text for later agents (part_001 line 113). -/
def laterAssignment : String :=
  "Your teammates above have already responded. Read what they produced, then execute YOUR part. Use your tools (read, write, edit, glob, grep, bash) to actually build/modify files. Do not repeat what teammates already did — build on it.\n"

/-- Closing reminder (part_001 line 116). -/
def closingReminder : String :=
  "\nIMPORTANT: Use your tools to read existing files before writing. Produce complete, production-quality work. No stubs. No placeholders. No TODOs.\n"

/-- `TeamChannel.buildContextPrompt` (part_001 lines 87-119): window the
transcript to the last `maxContext` (= 50) entries, detect whether any
prior agent response is in the window, then assemble the three labeled
sections; the teammate section lists the window's agent entries in order
and is omitted when none exist. -/
def buildContextPrompt (sharedMessages : List SharedMsg) (maxContext : Nat)
    (userMessage : String) (agentName agentRole : String) : String :=
  let recent := lastN maxContext sharedMessages
  let priorAgentResponses := recent.filter (fun m => m.agentId ≠ none)
  let isFirstAgent := priorAgentResponses.isEmpty
  let base := "== USER REQUEST ==\n" ++ userMessage ++ "\n\n"
  let base := if isFirstAgent then base
    else base ++ teammateHeader ++
      String.join ((recent.filter (fun m => m.agentId ≠ none)).map teammateBlock)
  let base := base ++ "== YOUR ASSIGNMENT ==\n" ++
    "You are " ++ agentName ++ " (" ++ agentRole ++ "). " ++
    (if isFirstAgent then firstAssignment else laterAssignment)
  base ++ closingReminder

/-- The transcript entry appended for a successful reply (part_001 lines
55-61) or, with `content = "Error: " ++ e`, for a failed one (lines
69-77). -/
def agentEntry (a : TAgent) (content : String) : SharedMsg :=
  ⟨some a.id, some a.name, a.role, content⟩

/-- The per-agent loop of `TeamChannel.broadcastToAll` (part_001 lines
29-82): build the context prompt from the shared transcript so far, invoke
the agent, append its reply — or `Error: <message>` when it threw — to the
transcript, collect the response, continue with the next agent. Returns
the final transcript and the `responses` list (agent id, content). -/
def broadcastStep (userMessage : String) :
    List SharedMsg → List TAgent → List SharedMsg × List (String × String)
  | shared, [] => (shared, [])
  | shared, a :: rest =>
    let prompt := buildContextPrompt shared 50 userMessage a.name a.role
    match a.behave prompt with
    | .ok response =>
      let pr := broadcastStep userMessage (shared ++ [agentEntry a response]) rest
      (pr.1, (a.id, response) :: pr.2)
    | .error e =>
      let errorMsg := "Error: " ++ e
      let pr := broadcastStep userMessage (shared ++ [agentEntry a errorMsg]) rest
      (pr.1, (a.id, errorMsg) :: pr.2)

/-- The user entry appended before dispatch (part_001 lines 18-24). -/
def userEntry (userMessage : String) : SharedMsg :=
  ⟨none, none, "user", userMessage⟩

/-- `TeamChannel.broadcastToAll` (part_001 lines 11-85): reject an empty
team, append the user entry to the shared transcript, then run the
sequential per-agent loop. -/
def broadcastToAll (sharedMessages : List SharedMsg) (userMessage : String)
    (agents : List TAgent) : Except String (List SharedMsg × List (String × String)) :=
  if agents.isEmpty then .error "No agents in team. Add agents first."
  else .ok (broadcastStep userMessage (sharedMessages ++ [userEntry userMessage]) agents)

/-! ## Concrete instantiations used to evaluate the model

The abstract `PathOps`/`FSOps`/provider parameters are instantiated with
small executable stand-ins so that the theorems can be exercised on
concrete inputs. -/

/-- A minimal concrete `PathOps`: absolute paths pass through `resolve2`
untouched, `dirname`/`basename` split at the last separator. -/
def simplePathOps : PathOps :=
  { resolve1 := fun d => d
    resolve2 := fun root p => if jsStartsWith p "/" then p else root ++ "/" ++ p
    dirname := fun p => ((p.splitOn "/").dropLast).foldl (fun acc seg => acc ++ "/" ++ seg) ""
    basename := fun p => ((p.splitOn "/").getLast?).getD p
    join := fun a b => a ++ "/" ++ b }

/-- A filesystem where every path is already canonical (no symlinks) and
every file holds the text `secret`. -/
def plainFS : FSOps :=
  { realpath := fun p => some p
    readFile := fun _ => some "secret" }

/-- The `responses` list of a broadcast, projected to the content strings
(or `none` when the broadcast rejected an empty team). -/
def broadcastContents (sharedMessages : List SharedMsg) (userMessage : String)
    (agents : List TAgent) : Option (List String) :=
  match broadcastToAll sharedMessages userMessage agents with
  | .ok pr => some (pr.2.map (fun q => q.2))
  | .error _ => none

/-- An agent that replies with its own incoming prompt, making the prompt
the channel built for it observable in the broadcast's responses. -/
def echoAgent (id name role : String) : TAgent :=
  ⟨id, name, role, fun p => .ok p⟩

/-- A 52-member team: members 1..51 reply with the fixed strings
`"r1!" … "r51!"`; the 52nd echoes its prompt. -/
def bigTeam : List TAgent :=
  ((List.range 51).map (fun j =>
    ⟨toString (j + 1), toString (j + 1), "dev",
      fun _ => .ok ("r" ++ toString (j + 1) ++ "!")⟩)) ++
  [echoAgent "52" "Echo" "dev"]

/-- Sandbox configuration used to exercise the tool-call ceiling:
one round, five tool calls per round. -/
def ceilingSandbox : ToolSandbox :=
  { projectRoot := "/p", safeMode := true, maxRounds := 1
    maxToolCallsPerRound := 5, maxResultSize := 10240, allowedPaths := ["/p"] }

/-- A provider script whose first round emits seven tool calls at once and
which afterwards stops. -/
def sevenCallScript : Nat → String × List ToolCall
  | 0 => ("", (List.range 7).map (fun j => ⟨toString (j + 1), "function", "t", "{}"⟩))
  | _ + 1 => ("done", [])

/-! ## Helper lemmas -/

theorem asString_length (l : List Char) : l.asString.length = l.length := rfl

theorem sliceTo_length (s : String) (n : Nat) : (sliceTo s n).length = min n s.length := by
  simp [sliceTo, asString_length, List.length_take]

theorem sliceLast_length (s : String) (n : Nat) : (sliceLast s n).length ≤ n := by
  simp [sliceLast, asString_length, List.length_drop]
  omega

theorem jsOrS_some_empty_default (s : String) : jsOrS (some s) "" = s := by
  by_cases hs : s = "" <;> simp [jsOrS, hs]

theorem identityView_roundtrip (a : Agent) (fid cp cm : String)
    (h1 : a.id ≠ "") (h2 : a.provider ≠ "") (h3 : a.model ≠ "") :
    Agent.identityView (Agent.fromJSON (Agent.toJSON a) fid cp cm) = Agent.identityView a := by
  simp [Agent.identityView, Agent.fromJSON, Agent.toJSON, Agent.make, jsOrS_some_empty_default,
    jsOrS, h1, h2, h3]
  exact ⟨fun h4 => h4.symm, fun h5 => h5.symm⟩

theorem executeToolCalls_length (sb : ToolSandbox)
    (dispatch : String → String → Except String String) (perm : String → Bool)
    (l : List ToolCall) :
    (executeToolCalls sb dispatch perm l).length = (dispatchedCalls l).length := by
  induction l with
  | nil => rfl
  | cons tc rest ih =>
    by_cases ht : tc.type = "function"
    · simp [executeToolCalls, dispatchedCalls, ht] at ih ⊢
      cases dispatch tc.name tc.args <;> simp [ih]
    · simp [executeToolCalls, dispatchedCalls, ht] at ih ⊢
      exact ih

theorem dispatchedCalls_length_le (l : List ToolCall) :
    (dispatchedCalls l).length ≤ l.length := by
  simp only [dispatchedCalls, List.length_map]
  exact List.length_filter_le _ _

theorem pushToolResults_counts (maxT : Nat) :
    ∀ (total : Nat) (trs : List ToolCallResult),
      (pushToolResults maxT total trs).2 = total + trs.length ∧
      (pushToolResults maxT total trs).1.length = trs.length := by
  intro total trs
  induction trs generalizing total with
  | nil => simp [pushToolResults]
  | cons tr rest ih =>
    obtain ⟨ih1, ih2⟩ := ih (total + 1)
    refine ⟨?_, ?_⟩
    · simp only [pushToolResults, List.length_cons, ih1]
      omega
    · simp only [pushToolResults, List.length_cons, ih2]

theorem pushToolResults_get (maxT : Nat) :
    ∀ (total : Nat) (trs : List ToolCallResult) (j : Nat),
      (pushToolResults maxT total trs).1[j]? =
        (trs[j]?).map (fun tr =>
          if maxT ≤ total + j then ⟨"tool", toolLimitContent, some tr.toolCallId⟩
          else (⟨"tool", tr.result, some tr.toolCallId⟩ : LoopMsg)) := by
  intro total trs
  induction trs generalizing total with
  | nil => intro j; simp [pushToolResults]
  | cons tr rest ih =>
    intro j
    cases j with
    | zero => simp [pushToolResults]
    | succ j =>
      have harith : total + 1 + j = total + (j + 1) := by omega
      simpa [pushToolResults, harith] using ih (total + 1) j

theorem grokLoopAux_bound (sb : ToolSandbox)
    (dispatch : String → String → Except String String) (perm : String → Bool)
    (script : Nat → String × List ToolCall)
    (hscript : ∀ r, ((script r).2).length ≤ sb.maxToolCallsPerRound) :
    ∀ (fuel totalRounds totalToolCalls : Nat) (messages : List LoopMsg)
      (acc : String) (execed : List (String × String)),
      execed.length = totalToolCalls →
      totalToolCalls ≤ totalRounds * sb.maxToolCallsPerRound →
      fuel + totalRounds = sb.maxRounds →
      (grokLoopAux sb dispatch perm script fuel totalRounds totalToolCalls messages acc
        execed).executed.length ≤ sb.maxRounds * sb.maxToolCallsPerRound ∧
      (grokLoopAux sb dispatch perm script fuel totalRounds totalToolCalls messages acc
        execed).rounds ≤ sb.maxRounds := by
  intro fuel totalRounds totalToolCalls messages acc execed h1 h2 h3
  induction fuel generalizing totalRounds totalToolCalls messages acc execed with
  | zero =>
    have htr : totalRounds = sb.maxRounds := by omega
    subst htr
    exact ⟨by simpa [grokLoopAux, h1] using h2, by simp [grokLoopAux]⟩
  | succ fuel ih =>
    have htr1 : totalRounds + 1 ≤ sb.maxRounds := by omega
    have hdlen : (dispatchedCalls (script totalRounds).2).length ≤ sb.maxToolCallsPerRound :=
      le_trans (dispatchedCalls_length_le _) (hscript totalRounds)
    have htrs : (executeToolCalls sb dispatch perm (script totalRounds).2).length =
        (dispatchedCalls (script totalRounds).2).length :=
      executeToolCalls_length sb dispatch perm _
    have hsnd : (pushToolResults (sb.maxRounds * sb.maxToolCallsPerRound) totalToolCalls
        (executeToolCalls sb dispatch perm (script totalRounds).2)).2 =
        totalToolCalls + (executeToolCalls sb dispatch perm (script totalRounds).2).length :=
      (pushToolResults_counts _ _ _).1
    have hnew : totalToolCalls + (executeToolCalls sb dispatch perm (script totalRounds).2).length
        ≤ (totalRounds + 1) * sb.maxToolCallsPerRound := by
      rw [htrs, Nat.succ_mul]
      omega
    have hbound : totalToolCalls + (executeToolCalls sb dispatch perm (script totalRounds).2).length
        ≤ sb.maxRounds * sb.maxToolCallsPerRound :=
      le_trans hnew (Nat.mul_le_mul_right _ htr1)
    by_cases he : (script totalRounds).2.isEmpty
    · refine ⟨?_, ?_⟩
      · simpa [grokLoopAux, he, h1] using le_trans h2
          (Nat.mul_le_mul_right _ (by omega : totalRounds ≤ sb.maxRounds))
      · simp [grokLoopAux, he]
        omega
    · have hne : ¬ ((script totalRounds).2.isEmpty = true) := he
      by_cases hc : sb.maxRounds * sb.maxToolCallsPerRound ≤
          (pushToolResults (sb.maxRounds * sb.maxToolCallsPerRound) totalToolCalls
            (executeToolCalls sb dispatch perm (script totalRounds).2)).2
      · refine ⟨?_, ?_⟩
        · simp only [grokLoopAux, if_neg hne, if_pos hc, List.length_append]
          omega
        · simp only [grokLoopAux, if_neg hne, if_pos hc]
          exact htr1
      · have step : grokLoopAux sb dispatch perm script (fuel + 1) totalRounds totalToolCalls
            messages acc execed =
            grokLoopAux sb dispatch perm script fuel (totalRounds + 1)
              (pushToolResults (sb.maxRounds * sb.maxToolCallsPerRound) totalToolCalls
                (executeToolCalls sb dispatch perm (script totalRounds).2)).2
              ((messages ++ [⟨"assistant", (script totalRounds).1, none⟩]) ++
                (pushToolResults (sb.maxRounds * sb.maxToolCallsPerRound) totalToolCalls
                  (executeToolCalls sb dispatch perm (script totalRounds).2)).1)
              (accumulate acc (script totalRounds).1)
              (execed ++ dispatchedCalls (script totalRounds).2) := by
          simp only [grokLoopAux, if_neg hne, if_neg hc]
        rw [step]
        apply ih
        · simp [List.length_append, h1, hsnd, htrs]
        · rw [hsnd]
          exact hnew
        · omega

theorem broadcastStep_shape (M : String) :
    ∀ (agents : List TAgent) (shared : List SharedMsg),
      (broadcastStep M shared agents).1.take shared.length = shared ∧
      (broadcastStep M shared agents).1.length = shared.length + agents.length ∧
      (broadcastStep M shared agents).2.length = agents.length := by
  intro agents
  induction agents with
  | nil =>
    intro shared
    exact ⟨List.take_length shared, by simp [broadcastStep], by simp [broadcastStep]⟩
  | cons a rest ih =>
    intro shared
    have key : ∀ entry : SharedMsg,
        (broadcastStep M (shared ++ [entry]) rest).1.take shared.length = shared ∧
        (broadcastStep M (shared ++ [entry]) rest).1.length =
          shared.length + (rest.length + 1) ∧
        rest.length + 1 = rest.length + 1 := by
      intro entry
      obtain ⟨ih1, ih2, _⟩ := ih (shared ++ [entry])
      refine ⟨?_, by rw [ih2]; simp [List.length_append]; omega, rfl⟩
      have hmin : min shared.length (shared ++ [entry]).length = shared.length := by
        simp [List.length_append]
      calc (broadcastStep M (shared ++ [entry]) rest).1.take shared.length
          = ((broadcastStep M (shared ++ [entry]) rest).1.take
              (shared ++ [entry]).length).take shared.length := by
            rw [List.take_take, hmin]
        _ = (shared ++ [entry]).take shared.length := by rw [ih1]
        _ = shared := List.take_left shared [entry]
    cases hb : a.behave (buildContextPrompt shared 50 M a.name a.role) with
    | ok r =>
      obtain ⟨k1, k2, _⟩ := key (agentEntry a r)
      exact ⟨by simpa [broadcastStep, hb] using k1,
        by simpa [broadcastStep, hb] using k2,
        by simpa [broadcastStep, hb] using ((ih (shared ++ [agentEntry a r])).2.2)⟩
    | error e =>
      obtain ⟨k1, k2, _⟩ := key (agentEntry a ("Error: " ++ e))
      exact ⟨by simpa [broadcastStep, hb] using k1,
        by simpa [broadcastStep, hb] using k2,
        by simpa [broadcastStep, hb] using
          ((ih (shared ++ [agentEntry a ("Error: " ++ e)])).2.2)⟩

theorem broadcastStep_entries (M : String) :
    ∀ (agents : List TAgent) (shared : List SharedMsg) (m : SharedMsg),
      m ∈ (broadcastStep M shared agents).1 → m ∈ shared ∨ m.agentId.isSome := by
  intro agents
  induction agents with
  | nil =>
    intro shared m hm
    exact Or.inl (by simpa [broadcastStep] using hm)
  | cons a rest ih =>
    intro shared m hm
    have key : ∀ entry : SharedMsg, entry.agentId.isSome →
        m ∈ (broadcastStep M (shared ++ [entry]) rest).1 → m ∈ shared ∨ m.agentId.isSome := by
      intro entry hid hmem
      rcases ih (shared ++ [entry]) m hmem with hin | hsome
      · rcases List.mem_append.mp hin with h | h
        · exact Or.inl h
        · simp only [List.mem_singleton] at h
          subst h
          exact Or.inr hid
      · exact Or.inr hsome
    cases hb : a.behave (buildContextPrompt shared 50 M a.name a.role) with
    | ok r =>
      refine key (agentEntry a r) rfl ?_
      simpa [broadcastStep, hb] using hm
    | error e =>
      refine key (agentEntry a ("Error: " ++ e)) rfl ?_
      simpa [broadcastStep, hb] using hm

/-! ## Claims -/

/-- C8 (amended): the provider routing of `processPrompt` sends only
`grok` (xAI) and `claude` (Anthropic) through a tool loop; `groq`,
`gemini` and `ollama` are all handled single-pass. -/
theorem C8_provider_routing :
    processPromptRoute "grok" = Route.toolLoopGrok ∧
    processPromptRoute "claude" = Route.toolLoopClaude ∧
    processPromptRoute "groq" = Route.singlePass ∧
    processPromptRoute "gemini" = Route.singlePass ∧
    processPromptRoute "ollama" = Route.singlePass := by decide

/-- C8 (counterexample to the claim as stated): a request against the
`ollama` provider does NOT go through a tool loop — `processPrompt`
routes it to `_processSinglePass`. -/
theorem C8_counterexample :
    processPromptRoute "ollama" = Route.singlePass ∧
    processPromptRoute "ollama" ≠ Route.toolLoopGrok ∧
    processPromptRoute "ollama" ≠ Route.toolLoopClaude := by decide

/-- C10: a `processPrompt` call carrying a (truthy) `directory` option
overwrites the shared sandbox's `projectRoot` with that directory and
resets `allowedPaths` to exactly the one resolved entry — independently of
whatever the sandbox held before, so the jail is always that of the most
recent request. -/
theorem C10_sandbox_update (po : PathOps) (sb : ToolSandbox) (d : String) (h : d ≠ "") :
    (processPromptSandboxUpdate po sb (some d)).projectRoot = d ∧
    (processPromptSandboxUpdate po sb (some d)).allowedPaths = [po.resolve1 d] ∧
    ∀ sb' : ToolSandbox,
      (processPromptSandboxUpdate po sb' (some d)).projectRoot =
        (processPromptSandboxUpdate po sb (some d)).projectRoot ∧
      (processPromptSandboxUpdate po sb' (some d)).allowedPaths =
        (processPromptSandboxUpdate po sb (some d)).allowedPaths := by
  simp [processPromptSandboxUpdate, h]

/-- C10, witness: the update evaluated on a concrete sandbox and
directory. -/
theorem C10_sandbox_update_witness :
    "/new" ≠ "" ∧
    (processPromptSandboxUpdate simplePathOps (ToolSandbox.default "/old")
      (some "/new")).projectRoot = "/new" ∧
    (processPromptSandboxUpdate simplePathOps (ToolSandbox.default "/old")
      (some "/new")).allowedPaths = [simplePathOps.resolve1 "/new"] :=
  ⟨by decide,
    (C10_sandbox_update simplePathOps (ToolSandbox.default "/old") "/new" (by decide)).1,
    (C10_sandbox_update simplePathOps (ToolSandbox.default "/old") "/new" (by decide)).2.1⟩

/-- C4 (counterexample to the claim as stated): with `includeHistory =
false` and a successful reply, `sendMessage` still appends both turns to
the agent's private DM history — the history is not left unchanged. -/
theorem C4_counterexample :
    (sendMessage ⟨[], "idle"⟩ "hi" false (.ok "yo")).1.messages =
      [⟨"user", "hi"⟩, ⟨"assistant", "yo"⟩] ∧
    (sendMessage ⟨[], "idle"⟩ "hi" false (.ok "yo")).1.messages ≠ ([] : List Msg) := by
  decide

/-- C4 (amended): on success `sendMessage` appends exactly the user
message and the reply to the DM history for BOTH values of
`includeHistory`; the flag only selects whether the prior history is sent
to the provider. On a throw the history is unchanged. -/
theorem C4_history_append (st : AgentState) (msg : String) (inc : Bool) (r e : String) :
    (sendMessage st msg inc (.ok r)).1.messages =
      st.messages ++ [⟨"user", msg⟩, ⟨"assistant", r⟩] ∧
    (sendMessage st msg inc (.error e)).1.messages = st.messages ∧
    historySentToProvider st true = st.messages ∧
    historySentToProvider st false = [] := by
  simp [sendMessage, historySentToProvider]

/-- C2: the agent tool loop's `executeToolCalls` never consults the
permission gateway. A deny-everything `onPermissionRequired` does not stop
a `bash` call — the tool is dispatched and the model receives its real
result, not `Permission denied by user for bash`; and the whole function
is invariant under swapping the gateway callback. -/
theorem C2_gateway_unused :
    executeToolCalls (ToolSandbox.default "/p") (fun _ _ => .ok "tool ran")
        (fun _ => false) [⟨"1", "function", "bash", "{}"⟩] =
      [⟨"1", "bash", "tool ran", true⟩] ∧
    (∀ (sb : ToolSandbox) (dispatch : String → String → Except String String)
        (p p' : String → Bool) (tcs : List ToolCall),
      executeToolCalls sb dispatch p tcs = executeToolCalls sb dispatch p' tcs) := by
  constructor
  · decide
  · intro sb dispatch p p' tcs
    induction tcs with
    | nil => rfl
    | cons tc rest ih => simp only [executeToolCalls, ih]

/-- C6 (counterexample to the claim as stated): with a configured cap of
100 and an input of 101 characters, the truncated result has length 221 —
well above the cap — and the joining marker is the ASCII
`"\n...[TRUNCATED]...\n"`. -/
theorem C6_counterexample :
    truncateResult ⟨"/p", true, 10, 5, 100, ["/p"]⟩ (String.mk (List.replicate 101 'a')) =
      String.mk (List.replicate 101 'a') ++ "\n...[TRUNCATED]...\n" ++
        String.mk (List.replicate 101 'a') ∧
    (truncateResult ⟨"/p", true, 10, 5, 100, ["/p"]⟩
      (String.mk (List.replicate 101 'a'))).length = 221 ∧
    ¬ ((truncateResult ⟨"/p", true, 10, 5, 100, ["/p"]⟩
      (String.mk (List.replicate 101 'a'))).length ≤ 100) := by
  set_option maxRecDepth 4096 in decide

/-- C6 (amended): whenever the configured cap is at least 7187 = 5120 +
19 + 2048 — which holds for the default 10240 — `truncateResult` is a
no-op up to the cap, always returns at most the cap, and past the cap
returns the first 5120 characters and last 2048 characters joined by the
literal `"\n...[TRUNCATED]...\n"` marker. -/
theorem C6_truncate_spec (sb : ToolSandbox) (s : String) (h : 7187 ≤ sb.maxResultSize) :
    (s.length ≤ sb.maxResultSize → truncateResult sb s = s) ∧
    (truncateResult sb s).length ≤ sb.maxResultSize ∧
    (sb.maxResultSize < s.length →
      truncateResult sb s = sliceTo s 5120 ++ truncMarker ++ sliceLast s 2048) := by
  refine ⟨fun hle => by simp [truncateResult, hle], ?_, fun hgt => ?_⟩
  · by_cases hle : s.length ≤ sb.maxResultSize
    · simp only [truncateResult, if_pos hle]
      exact hle
    · have h5 : (sliceTo s 5120).length ≤ 5120 := by
        rw [sliceTo_length]; exact Nat.min_le_left _ _
      have h2 : (sliceLast s 2048).length ≤ 2048 := sliceLast_length s 2048
      have hm : truncMarker.length = 19 := by decide
      have : truncateResult sb s = sliceTo s 5120 ++ truncMarker ++ sliceLast s 2048 := by
        simp [truncateResult, hle]
      rw [this, String.length_append, String.length_append, hm]
      omega
  · have hle : ¬ s.length ≤ sb.maxResultSize := by omega
    simp [truncateResult, hle]

/-- C6, witness: the amended statement evaluated at the default sandbox
(cap 10240) and a short string, where truncation is the identity. -/
theorem C6_truncate_spec_witness :
    7187 ≤ (ToolSandbox.default "/p").maxResultSize ∧
    truncateResult (ToolSandbox.default "/p") "abc" = "abc" :=
  ⟨by decide, (C6_truncate_spec (ToolSandbox.default "/p") "abc" (by decide)).1 (by decide)⟩

/-- C5: when the canonicalized path (symlinks resolved; for an absent
target, the parent directory canonicalized) lies outside every allowed
prefix, `executeRead` returns the `Blocked: …` sentinel and performs no
filesystem read: its value does not depend on the file-content map at
all. Holds for every `path` implementation and every filesystem. -/
theorem C5_read_blocked (po : PathOps) (rp f f' : String → Option String)
    (sb : ToolSandbox) (filePath : String) (offset limit : Option Nat)
    (h : ∀ ap ∈ sb.allowedPaths,
      ¬ jsStartsWith (computeRealPath po ⟨rp, f⟩ (po.resolve2 sb.projectRoot filePath)) ap) :
    executeRead po ⟨rp, f⟩ sb filePath offset limit =
      .ok ("Blocked: " ++ ("Path outside project root: " ++
        computeRealPath po ⟨rp, f⟩ (po.resolve2 sb.projectRoot filePath))) ∧
    executeRead po ⟨rp, f⟩ sb filePath offset limit =
      executeRead po ⟨rp, f'⟩ sb filePath offset limit := by
  have hany : (sb.allowedPaths.any (fun ap =>
      jsStartsWith (computeRealPath po ⟨rp, f⟩ (po.resolve2 sb.projectRoot filePath)) ap))
      = false := by
    rw [List.any_eq_false]
    intro ap hap
    exact h ap hap
  have hany' : (sb.allowedPaths.any (fun ap =>
      jsStartsWith (computeRealPath po ⟨rp, f'⟩ (po.resolve2 sb.projectRoot filePath)) ap))
      = false := hany
  have hcrp : computeRealPath po ⟨rp, f'⟩ (po.resolve2 sb.projectRoot filePath) =
      computeRealPath po ⟨rp, f⟩ (po.resolve2 sb.projectRoot filePath) := rfl
  constructor
  · simp [executeRead, validatePath, hany]
  · simp [executeRead, validatePath, hany, hany', hcrp]

/-- C5, witness: a read of `/etc/passwd` against a sandbox jailed to
`/proj`, on a symlink-free filesystem, is blocked. -/
theorem C5_read_blocked_witness :
    (∀ ap ∈ (ToolSandbox.default "/proj").allowedPaths,
      ¬ jsStartsWith (computeRealPath simplePathOps plainFS
        (simplePathOps.resolve2 (ToolSandbox.default "/proj").projectRoot
          "/etc/passwd")) ap) ∧
    executeRead simplePathOps plainFS (ToolSandbox.default "/proj") "/etc/passwd"
        none none =
      .ok ("Blocked: " ++ ("Path outside project root: " ++
        computeRealPath simplePathOps plainFS
          (simplePathOps.resolve2 (ToolSandbox.default "/proj").projectRoot
            "/etc/passwd"))) := by
  refine ⟨by decide, ?_⟩
  exact (C5_read_blocked simplePathOps plainFS.realpath plainFS.readFile plainFS.readFile
    (ToolSandbox.default "/proj") "/etc/passwd" none none (by decide)).1

/-- C7: a save-then-load round trip reproduces the team's name and its
ordered agent list on id/name/role/provider/model/systemPrompt (given the
agents' non-defaulted fields are non-empty, which construction
guarantees); an agent holding no own key is serialized as the literal
`"__config__"` sentinel — never the raw config key — and deserializes
back to `none`, falling back to the config lookup. -/
theorem C7_roundtrip (t : Team) (fid cp cm : String)
    (h : ∀ a ∈ t.agents, a.id ≠ "" ∧ a.provider ≠ "" ∧ a.model ≠ "") :
    (loadTeam (saveTeam t none) fid cp cm).name = t.name ∧
    (loadTeam (saveTeam t none) fid cp cm).agents.map Agent.identityView =
      t.agents.map Agent.identityView ∧
    (∀ a ∈ t.agents, a.apiKey = none →
      (Agent.toJSON a).apiKey = "__config__" ∧
      (Agent.fromJSON (Agent.toJSON a) fid cp cm).apiKey = none) := by
  refine ⟨rfl, ?_, ?_⟩
  · simp only [loadTeam, saveTeam, List.map_map]
    apply List.map_congr_left
    intro a ha
    exact identityView_roundtrip a fid cp cm (h a ha).1 (h a ha).2.1 (h a ha).2.2
  · intro a _ hnone
    refine ⟨by simp [Agent.toJSON, hnone], ?_⟩
    simp [Agent.fromJSON, Agent.toJSON, Agent.make, jsOrNull, hnone]

/-- C7, witness: the round trip evaluated on a one-agent team whose agent
inherits the config key. -/
theorem C7_roundtrip_witness :
    (∀ a ∈ (⟨"Squad", [⟨"a1", some "Alice", "dev", "", "grok", "m1", none, none⟩]⟩ :
        Team).agents, a.id ≠ "" ∧ a.provider ≠ "" ∧ a.model ≠ "") ∧
    (loadTeam (saveTeam
        (⟨"Squad", [⟨"a1", some "Alice", "dev", "", "grok", "m1", none, none⟩]⟩ : Team)
        none) "fresh" "grok" "gm").agents.map Agent.identityView =
      (⟨"Squad", [⟨"a1", some "Alice", "dev", "", "grok", "m1", none, none⟩]⟩ :
        Team).agents.map Agent.identityView :=
  ⟨by decide,
    (C7_roundtrip
      (⟨"Squad", [⟨"a1", some "Alice", "dev", "", "grok", "m1", none, none⟩]⟩ : Team)
      "fresh" "grok" "gm" (by decide)).2.1⟩

/-- C3 (counterexample to the claim as stated): with `maxRounds = 1` and
`maxToolCallsPerRound = 5` (ceiling 5), a single round emitting seven tool
calls dispatches all seven — the executed count exceeds the ceiling, and
the calls past the ceiling are executed even though the model receives the
synthetic `[Tool limit reached: …]` message in their place (the last tool
message is synthetic while the last call still reached the dispatcher). -/
theorem C3_counterexample :
    (processWithToolLoopGrok ceilingSandbox (fun _ _ => .ok "ok") (fun _ => true)
      sevenCallScript).executed.length = 7 ∧
    ¬ ((processWithToolLoopGrok ceilingSandbox (fun _ _ => .ok "ok") (fun _ => true)
      sevenCallScript).executed.length ≤
        ceilingSandbox.maxRounds * ceilingSandbox.maxToolCallsPerRound) ∧
    ((processWithToolLoopGrok ceilingSandbox (fun _ _ => .ok "ok") (fun _ => true)
      sevenCallScript).messages.getLast?).map LoopMsg.content = some toolLimitContent ∧
    (processWithToolLoopGrok ceilingSandbox (fun _ _ => .ok "ok") (fun _ => true)
      sevenCallScript).executed.getLast? = some ("t", "{}") := by
  set_option maxRecDepth 4096 in decide

/-- C3 (amended): provided every assistant turn emits at most
`maxToolCallsPerRound` tool calls, the number of dispatched tool
invocations per request is at most `maxRounds × maxToolCallsPerRound` and
the loop runs at most `maxRounds` rounds; independently, once the
cumulative counter reaches the ceiling, each further tool result delivered
to the model is replaced by the synthetic `[Tool limit reached: max tool
calls exceeded]` message (the call itself having been executed), while
results below the ceiling are delivered unchanged. -/
theorem C3_tool_ceiling (sb : ToolSandbox)
    (dispatch : String → String → Except String String) (perm : String → Bool)
    (script : Nat → String × List ToolCall)
    (hscript : ∀ r, ((script r).2).length ≤ sb.maxToolCallsPerRound) :
    (processWithToolLoopGrok sb dispatch perm script).executed.length ≤
      sb.maxRounds * sb.maxToolCallsPerRound ∧
    (processWithToolLoopGrok sb dispatch perm script).rounds ≤ sb.maxRounds ∧
    (∀ (maxT total : Nat) (trs : List ToolCallResult) (j : Nat),
      (pushToolResults maxT total trs).1[j]? =
        (trs[j]?).map (fun tr =>
          if maxT ≤ total + j then ⟨"tool", toolLimitContent, some tr.toolCallId⟩
          else (⟨"tool", tr.result, some tr.toolCallId⟩ : LoopMsg))) := by
  have hb := grokLoopAux_bound sb dispatch perm script hscript sb.maxRounds 0 0 [] "" []
    rfl (Nat.zero_le _) (by omega)
  refine ⟨?_, ?_, fun maxT total trs j => pushToolResults_get maxT total trs j⟩
  · have : (processWithToolLoopGrok sb dispatch perm script).executed =
        (grokLoopAux sb dispatch perm script sb.maxRounds 0 0 [] "" []).executed := by
      simp only [processWithToolLoopGrok]
      split <;> rfl
    rw [this]
    exact hb.1
  · have : (processWithToolLoopGrok sb dispatch perm script).rounds =
        (grokLoopAux sb dispatch perm script sb.maxRounds 0 0 [] "" []).rounds := by
      simp only [processWithToolLoopGrok]
      split <;> rfl
    rw [this]
    exact hb.2

/-- C3, witness: the amended bound evaluated on the default sandbox and a
provider that emits no tool calls. -/
theorem C3_tool_ceiling_witness :
    (∀ r : Nat, (((fun _ : Nat => ("done", ([] : List ToolCall))) r).2).length ≤
      (ToolSandbox.default "/p").maxToolCallsPerRound) ∧
    (processWithToolLoopGrok (ToolSandbox.default "/p") (fun _ _ => .ok "x") (fun _ => true)
      (fun _ : Nat => ("done", ([] : List ToolCall)))).executed.length ≤
      (ToolSandbox.default "/p").maxRounds * (ToolSandbox.default "/p").maxToolCallsPerRound :=
  ⟨fun _ => Nat.zero_le _,
    (C3_tool_ceiling (ToolSandbox.default "/p") (fun _ _ => .ok "x") (fun _ => true)
      (fun _ : Nat => ("done", ([] : List ToolCall))) (fun _ => Nat.zero_le _)).1⟩

/-- C9: when an agent's `sendMessage` throws `e` at any point of a
broadcast (any accumulated transcript `shared`, any remaining agents
`rest`), the channel appends exactly the entry
`{agentId, agentName, role, content = "Error: " ++ e}` for that agent,
records `Error: <message>` as its response, and still processes every
remaining agent — the response list covers the failing agent and all of
`rest`. -/
theorem C9_error_continues (shared : List SharedMsg) (M : String) (a : TAgent)
    (rest : List TAgent) (e : String)
    (h : a.behave (buildContextPrompt shared 50 M a.name a.role) = .error e) :
    (broadcastStep M shared (a :: rest)).1.take (shared.length + 1) =
      shared ++ [agentEntry a ("Error: " ++ e)] ∧
    (broadcastStep M shared (a :: rest)).2.length = rest.length + 1 ∧
    (broadcastStep M shared (a :: rest)).2.head? = some (a.id, "Error: " ++ e) := by
  have hstep : broadcastStep M shared (a :: rest) =
      ((broadcastStep M (shared ++ [agentEntry a ("Error: " ++ e)]) rest).1,
        (a.id, "Error: " ++ e) ::
          (broadcastStep M (shared ++ [agentEntry a ("Error: " ++ e)]) rest).2) := by
    simp only [broadcastStep, h]
  obtain ⟨s1, _, s3⟩ := broadcastStep_shape M rest (shared ++ [agentEntry a ("Error: " ++ e)])
  rw [hstep]
  refine ⟨?_, by simp [s3], rfl⟩
  have hlen : shared.length + 1 = (shared ++ [agentEntry a ("Error: " ++ e)]).length := by
    simp
  rw [hlen]
  exact s1

/-- C9, witness: a two-agent broadcast whose first agent throws `boom`;
the error entry is appended and the second agent still runs. -/
theorem C9_error_continues_witness :
    (TAgent.behave ⟨"a1", "Al", "dev", fun _ => .error "boom"⟩
      (buildContextPrompt [] 50 "go" "Al" "dev") = .error "boom") ∧
    (broadcastStep "go" []
      [⟨"a1", "Al", "dev", fun _ => .error "boom"⟩,
        ⟨"a2", "Bo", "dev", fun _ => .ok "fine"⟩]).2.length = 1 + 1 ∧
    (broadcastStep "go" []
      [⟨"a1", "Al", "dev", fun _ => .error "boom"⟩,
        ⟨"a2", "Bo", "dev", fun _ => .ok "fine"⟩]).2.head? =
      some ("a1", "Error: " ++ "boom") :=
  ⟨rfl,
    (C9_error_continues [] "go" ⟨"a1", "Al", "dev", fun _ => .error "boom"⟩
      [⟨"a2", "Bo", "dev", fun _ => .ok "fine"⟩] "boom" rfl).2.1,
    (C9_error_continues [] "go" ⟨"a1", "Al", "dev", fun _ => .error "boom"⟩
      [⟨"a2", "Bo", "dev", fun _ => .ok "fine"⟩] "boom" rfl).2.2⟩

/-- C1 (amended): for a transcript of the form `userEntry M :: R` — the
state the broadcast loop reaches before each agent when the channel
started empty, since (second conjunct) broadcast-appended entries always
carry an agent id — with at most 50 prior replies retained, the built
prompt is exactly: the `== USER REQUEST ==` section with M, then (omitted
precisely when `R` is empty, i.e. for the first agent on a fresh channel)
the `== TEAMMATE RESPONSES ==` header with the blocks of `R₁…Rᵢ₋₁` in
order and nothing else — in particular no later agent's reply — then the
assignment section and closing reminder. -/
theorem C1_prompt_contents (M : String) (R : List SharedMsg) (name role : String)
    (h1 : R.length ≤ 50) (h2 : ∀ m ∈ R, m.agentId ≠ none) :
    buildContextPrompt (userEntry M :: R) 50 M name role =
      ((if R.isEmpty then "== USER REQUEST ==\n" ++ M ++ "\n\n"
        else "== USER REQUEST ==\n" ++ M ++ "\n\n" ++ teammateHeader ++
          String.join (R.map teammateBlock)) ++
        "== YOUR ASSIGNMENT ==\n" ++ "You are " ++ name ++ " (" ++ role ++ "). " ++
        (if R.isEmpty then firstAssignment else laterAssignment)) ++ closingReminder ∧
    (∀ (shared : List SharedMsg) (agents : List TAgent) (m : SharedMsg),
      m ∈ (broadcastStep M shared agents).1 → m ∈ shared ∨ m.agentId.isSome) := by
  refine ⟨?_, fun shared agents m hm => broadcastStep_entries M agents shared m hm⟩
  have hRfilter : R.filter (fun m => m.agentId ≠ none) = R :=
    List.filter_eq_self.mpr (fun m hm => by simpa using h2 m hm)
  have hlast : (lastN 50 (userEntry M :: R)).filter (fun m => m.agentId ≠ none) = R := by
    by_cases hlen : R.length ≤ 49
    · have h0 : (userEntry M :: R).length - 50 = 0 := by
        simp only [List.length_cons]
        omega
      have hl : lastN 50 (userEntry M :: R) = userEntry M :: R := by
        unfold lastN
        rw [h0]
        exact List.drop_zero _
      rw [hl]
      simp [userEntry, hRfilter]
      exact h2
    · have hlen50 : R.length = 50 := by omega
      have h1' : (userEntry M :: R).length - 50 = 1 := by
        simp only [List.length_cons, hlen50]
      have hl : lastN 50 (userEntry M :: R) = R := by
        unfold lastN
        rw [h1']
        rfl
      rw [hl, hRfilter]
  simp only [buildContextPrompt, hlast]

/-- C1, witness: the prompt shape evaluated for the first agent on a
fresh channel (no prior replies): the teammate section is absent. -/
theorem C1_prompt_contents_witness :
    (([] : List SharedMsg).length ≤ 50 ∧ (∀ m ∈ ([] : List SharedMsg), m.agentId ≠ none)) ∧
    buildContextPrompt [userEntry "hi"] 50 "hi" "Alice" "lead" =
      ((if ([] : List SharedMsg).isEmpty then "== USER REQUEST ==\n" ++ "hi" ++ "\n\n"
        else "== USER REQUEST ==\n" ++ "hi" ++ "\n\n" ++ teammateHeader ++
          String.join (([] : List SharedMsg).map teammateBlock)) ++
        "== YOUR ASSIGNMENT ==\n" ++ "You are " ++ "Alice" ++ " (" ++ "lead" ++ "). " ++
        (if ([] : List SharedMsg).isEmpty then firstAssignment else laterAssignment)) ++
        closingReminder :=
  ⟨⟨by decide, by decide⟩,
    (C1_prompt_contents "hi" [] "Alice" "lead" (by decide) (by decide)).1⟩

/-- C1 (counterexample to the claim as stated): first, on a channel whose
transcript already holds an entry from an earlier broadcast, the FIRST
agent of a new broadcast does get a `== TEAMMATE RESPONSES ==` section
(observed through an agent that echoes its prompt); second, in a fresh
52-agent broadcast the 52nd agent's prompt does not contain agent 1's
reply `r1!` (the 50-entry window dropped it) although it contains `r2!`. -/
theorem C1_counterexample :
    containsSub (((broadcastContents [⟨some "x", some "X", "dev", "old"⟩] "hi"
        [echoAgent "a1" "Alice" "lead"]).getD []).headD "") teammateHeader = true ∧
    containsSub (((broadcastContents [] "hi" bigTeam).getD []).getLastD "") "r1!" = false ∧
    containsSub (((broadcastContents [] "hi" bigTeam).getD []).getLastD "") "r2!" = true := by
  set_option maxRecDepth 200000 in set_option maxHeartbeats 2000000 in decide

end Gitforked
